import Mathlib

/-!
Shallow embedding of the review-triage core of the `your_reviews` repository:
`calculatePriorityScore`, `checkAndFlag` and `flagReview` from
`src/api/integrations.js`, together with the skeleton of `createReview`
that invokes them.

Modelling conventions:
* A JavaScript string is a `List Char`; `text.toLowerCase()` is a
  character-wise `Char.toLower` (the keyword lists are plain ASCII).
* `hay.includes(needle)` is substring containment, implemented by the
  explicit scan `includesSub`.
* A JS integer is `Int`.
* Fallible operations return `Except String α`; the string is the error.
* JS `x || d` defaulting is modelled by `jsOr*` helpers that reflect JS
  truthiness for the relevant type (missing/`null` is `none`; `""` and `0`
  are falsy; an array is always truthy).
* The empty string `""` is the code's sentinel for "no flag reason", which
  the spec calls `none`.
-/

namespace YourReviews

/-- `text.toLowerCase()`: character-wise lower-casing (ASCII model). -/
def lowerText (text : List Char) : List Char := text.map Char.toLower

/-- `needle` occurs at the very start of `hay`. -/
def matchesAt : List Char → List Char → Bool
  | _, [] => true
  | [], _ :: _ => false
  | c :: hay, d :: needle => c == d && matchesAt hay needle

/-- JS `hay.includes(needle)`: `needle` occurs contiguously somewhere in `hay`. -/
def includesSub : List Char → List Char → Bool
  | [], needle => matchesAt [] needle
  | c :: hay, needle => matchesAt (c :: hay) needle || includesSub hay needle

/-- The fixed negative-keyword list of `calculatePriorityScore`/`checkAndFlag`. -/
def negativeKeywords : List (List Char) :=
  (["terrible", "horrible", "worst", "awful", "scam", "rude", "unprofessional"].map
    String.data)

/-- The fixed urgent-keyword list of `calculatePriorityScore`/`checkAndFlag`. -/
def urgentKeywords : List (List Char) :=
  (["lawsuit", "legal", "health", "safety", "discrimination"].map String.data)

/-- `urgentKeywords.some(keyword => lowerText.includes(keyword))`. -/
def hasUrgent (text : List Char) : Bool :=
  urgentKeywords.any (fun k => includesSub (lowerText text) k)

/-- `negativeKeywords.some(keyword => lowerText.includes(keyword))`. -/
def hasNegative (text : List Char) : Bool :=
  negativeKeywords.any (fun k => includesSub (lowerText text) k)

/-- `calculatePriorityScore(rating, text)` from `src/api/integrations.js`
(lines 701-725): base 5, sequential rating / keyword / length adjustments,
final clamp `Math.min(10, Math.max(1, score))`. -/
def calculatePriorityScore (rating : Int) (text : List Char) : Int :=
  let base : Int := 5
  let afterRating : Int :=
    if rating ≤ 2 then base + 3
    else if rating ≤ 3 then base + 2
    else if rating ≥ 5 then base - 1
    else base
  let afterKeywords : Int :=
    if hasUrgent text then afterRating + 4
    else if hasNegative text then afterRating + 2
    else afterRating
  let afterLength : Int :=
    if text.length > 500 then afterKeywords + 1 else afterKeywords
  min 10 (max 1 afterLength)

/-- The decision record computed by `checkAndFlag` (lines 730-757) before the
persist step: `shouldFlag`, `flagReason` and `keywords`. -/
structure FlagDecision where
  shouldFlag : Bool
  flagReason : String
  keywords : List (List Char)
deriving DecidableEq, Repr

/-- `negativeKeywords.filter(keyword => lowerText.includes(keyword))`. -/
def foundNegative (text : List Char) : List (List Char) :=
  negativeKeywords.filter (fun k => includesSub (lowerText text) k)

/-- `urgentKeywords.filter(keyword => lowerText.includes(keyword))`. -/
def foundUrgent (text : List Char) : List (List Char) :=
  urgentKeywords.filter (fun k => includesSub (lowerText text) k)

/-- The pure decision part of `checkAndFlag(reviewId, reviewData)`: the values
of `shouldFlag`, `flagReason`, `keywords` after lines 732-757.  The JS
mutations are modelled by shadowing `let`s; `flagReason || 'negative_keywords'`
is `if flagReason = "" then "negative_keywords" else flagReason`. -/
def checkAndFlagDecision (rating : Int) (text : List Char) : FlagDecision :=
  let shouldFlag : Bool := false
  let flagReason : String := ""
  let shouldFlag : Bool := if rating ≤ 2 then true else shouldFlag
  let flagReason : String := if rating ≤ 2 then "low_rating" else flagReason
  let fU := foundUrgent text
  let fN := foundNegative text
  if fU.length > 0 then
    { shouldFlag := true, flagReason := "urgent_keywords", keywords := fU }
  else if fN.length > 0 then
    { shouldFlag := true
      flagReason := if flagReason = "" then "negative_keywords" else flagReason
      keywords := fN }
  else
    { shouldFlag := shouldFlag, flagReason := flagReason, keywords := [] }

/-- The argument record passed to `flagReview(reviewId, flagData)`; optional
fields are `none` when absent from the JS object literal. -/
structure FlagData where
  reason : String
  keywords : Option (List (List Char))
  flaggedBy : Option String
  priorityScore : Option Int
deriving DecidableEq, Repr

/-- JS `x || d` for an optional string (`undefined`/`null`/`""` are falsy). -/
def jsOrString (x : Option String) (d : String) : String :=
  match x with
  | none => d
  | some s => if s = "" then d else s

/-- JS `x || d` for an optional number (`undefined`/`null`/`0` are falsy). -/
def jsOrInt (x : Option Int) (d : Int) : Int :=
  match x with
  | none => d
  | some v => if v = 0 then d else v

/-- JS `x || d` for an optional array (an array object is always truthy). -/
def jsOrList (x : Option (List (List Char))) (d : List (List Char)) :
    List (List Char) :=
  match x with
  | none => d
  | some l => l

/-- The `flagging` sub-document written by `flagReview` (the `flaggedAt`
timestamp is outside the pure model). -/
structure Flagging where
  isFlagged : Bool
  reason : String
  keywords : List (List Char)
  flaggedBy : String
deriving DecidableEq, Repr

/-- The update document written by `flagReview`: the `flagging` structure and
the overwritten `priorityScore`. -/
structure FlagUpdate where
  flagging : Flagging
  priorityScore : Int
deriving DecidableEq, Repr

/-- `flagReview(reviewId, flagData)` (lines 616-636): validates that `reason`
is present (`validateRequired` throws `VALIDATION_ERROR` on a missing/empty
field) and builds the update document, with
`priorityScore: Math.min(10, (flagData.priorityScore || 8))`. -/
def flagReviewUpdate (flagData : FlagData) : Except String FlagUpdate :=
  if flagData.reason = "" then Except.error "VALIDATION_ERROR"
  else Except.ok
    { flagging :=
        { isFlagged := true
          reason := flagData.reason
          keywords := jsOrList flagData.keywords []
          flaggedBy := jsOrString flagData.flaggedBy "system" }
      priorityScore := min 10 (jsOrInt flagData.priorityScore 8) }

/-- The `flagData` object literal that `checkAndFlag` passes to `flagReview`
(lines 760-764): reason, keywords, `flaggedBy: 'system'`, no `priorityScore`. -/
def autoFlagData (d : FlagDecision) : FlagData :=
  { reason := d.flagReason
    keywords := some d.keywords
    flaggedBy := some "system"
    priorityScore := none }

/-- The update document that the auto-flag path of `checkAndFlag` hands to the
storage collaborator when the decision is to flag. -/
def autoFlagUpdate (rating : Int) (text : List Char) : Except String FlagUpdate :=
  flagReviewUpdate (autoFlagData (checkAndFlagDecision rating text))

/-- Full `checkAndFlag` (lines 728-773): compute the decision, persist it via
`flagReview` when `shouldFlag` holds (the storage write is the abstract
`persist`), and catch every error, returning `false` instead (lines 768-772:
"Don't throw error - flagging failure shouldn't fail review creation"). -/
def checkAndFlagRun (rating : Int) (text : List Char)
    (persist : FlagUpdate → Except String Unit) : Except String Bool :=
  let d := checkAndFlagDecision rating text
  let body : Except String Bool :=
    if d.shouldFlag then
      match autoFlagUpdate rating text with
      | Except.error e => Except.error e
      | Except.ok u =>
          match persist u with
          | Except.error e => Except.error e
          | Except.ok _ => Except.ok d.shouldFlag
    else Except.ok d.shouldFlag
  match body with
  | Except.error _ => Except.ok false
  | Except.ok b => Except.ok b

/-- The persistence-relevant skeleton of `createReview` (lines 499-504): write
the review document (abstract `create`, whose document carries
`priorityScore: calculatePriorityScore(rating, text)`), then `await
checkAndFlag`, then return the create result. -/
def createReviewRun (rating : Int) (text : List Char)
    (create : Except String String) (persist : FlagUpdate → Except String Unit) :
    Except String String :=
  match create with
  | Except.error e => Except.error e
  | Except.ok rid =>
      match checkAndFlagRun rating text persist with
      | Except.error e => Except.error e
      | Except.ok _ => Except.ok rid

/-- The rating-based adjustment of `calculatePriorityScore` (lines 704-707),
as a delta to the running score. -/
def ratingAdjustment (rating : Int) : Int :=
  if rating ≤ 2 then 3
  else if rating ≤ 3 then 2
  else if rating ≥ 5 then -1
  else 0

/-- The content-based adjustment of `calculatePriorityScore` (lines 710-719),
as a delta to the running score. -/
def contentBonus (text : List Char) : Int :=
  if hasUrgent text then 4
  else if hasNegative text then 2
  else 0

/-- The text-length adjustment of `calculatePriorityScore` (line 722), as a
delta to the running score. -/
def lengthBonus (text : List Char) : Int :=
  if text.length > 500 then 1 else 0

/-- Modelled from the claimed description of the scorer (for comparison with
`calculatePriorityScore`): base 5; +3 if rating ≤ 2, +2 if rating = 3, −1 if
rating ≥ 5, +0 if rating = 4; +4 for an urgent keyword, else +2 for a negative
keyword; then clamped to [1,10] — with no length adjustment. -/
def claimedScoreNoLength (rating : Int) (text : List Char) : Int :=
  min 10 (max 1 (5 +
    (if rating ≤ 2 then 3 else if rating = 3 then 2 else if rating ≥ 5 then -1
      else 0) +
    (if hasUrgent text then 4 else if hasNegative text then 2 else 0)))

/-- The sequential score updates of `calculatePriorityScore` sum to the three
adjustment deltas around the base score 5, under the final clamp. -/
lemma calculatePriorityScore_decomp (rating : Int) (text : List Char) :
    calculatePriorityScore rating text =
      min 10 (max 1 (5 + ratingAdjustment rating + contentBonus text +
        lengthBonus text)) := by
  simp only [calculatePriorityScore, ratingAdjustment, contentBonus, lengthBonus]
  split_ifs <;> norm_num

/-- Explicit case form of `checkAndFlagDecision`: urgent keywords first, then
negative keywords (reason kept from the low-rating step when set), then the
low-rating-only case, then the no-flag case. -/
lemma checkAndFlagDecision_eq (rating : Int) (text : List Char) :
    checkAndFlagDecision rating text =
      if (foundUrgent text).length > 0 then
        ⟨true, "urgent_keywords", foundUrgent text⟩
      else if (foundNegative text).length > 0 then
        ⟨true, if rating ≤ 2 then "low_rating" else "negative_keywords",
          foundNegative text⟩
      else if rating ≤ 2 then ⟨true, "low_rating", []⟩
      else ⟨false, "", []⟩ := by
  by_cases h2 : rating ≤ 2 <;>
    simp [checkAndFlagDecision, h2]

/-- Every decision carries one of the three concrete reasons, or the empty
reason together with `shouldFlag = false`. -/
lemma decision_reason_cases (rating : Int) (text : List Char) :
    (checkAndFlagDecision rating text).flagReason = "urgent_keywords" ∨
    (checkAndFlagDecision rating text).flagReason = "negative_keywords" ∨
    (checkAndFlagDecision rating text).flagReason = "low_rating" ∨
    ((checkAndFlagDecision rating text).flagReason = "" ∧
      (checkAndFlagDecision rating text).shouldFlag = false) := by
  rw [checkAndFlagDecision_eq]
  split_ifs <;> simp

/-- C2: for every rating (any integer, including out-of-range values) and
every text, `calculatePriorityScore` returns an integer in [1, 10]. -/
theorem priorityScore_in_range (rating : Int) (text : List Char) :
    1 ≤ calculatePriorityScore rating text ∧
    calculatePriorityScore rating text ≤ 10 := by
  rw [calculatePriorityScore_decomp]
  exact ⟨le_min (by norm_num) (le_max_left 1 _), min_le_left 10 _⟩

set_option maxRecDepth 8192 in
/-- C3 counterexample: at rating 4 and a 501-character text the function
returns 6, while the claimed formula — which has no length adjustment before
the clamp — returns 5, so the claim as stated is false. -/
theorem priorityScore_formula_counterexample :
    calculatePriorityScore 4 (List.replicate 501 'a') = 6 ∧
    claimedScoreNoLength 4 (List.replicate 501 'a') = 5 ∧
    calculatePriorityScore 4 (List.replicate 501 'a') ≠
      claimedScoreNoLength 4 (List.replicate 501 'a') := by decide

/-- C3 (amended): `calculatePriorityScore` is base 5, plus the rating
adjustment (+3 if rating ≤ 2, +2 if rating = 3, −1 if rating ≥ 5, +0 if
rating = 4), plus the keyword bonus (+4 urgent, else +2 negative, never both),
plus 1 if the text is longer than 500 characters, clamped to [1,10]; with
score(1,"") = 8, score(5,"") = 4, score(3,"this is fine") = 7 and
score(4,"this was a lawsuit-worthy terrible experience") = 9. -/
theorem priorityScore_formula (rating : Int) (text : List Char) :
    (calculatePriorityScore rating text =
      min 10 (max 1 (5 +
        (if rating ≤ 2 then 3 else if rating = 3 then 2
          else if rating ≥ 5 then -1 else 0) +
        (if hasUrgent text then 4 else if hasNegative text then 2 else 0) +
        (if text.length > 500 then 1 else 0)))) ∧
    calculatePriorityScore 1 "".data = 8 ∧
    calculatePriorityScore 5 "".data = 4 ∧
    calculatePriorityScore 3 "this is fine".data = 7 ∧
    calculatePriorityScore 4
      "this was a lawsuit-worthy terrible experience".data = 9 := by
  refine ⟨?_, by decide, by decide, by decide, by decide⟩
  rw [calculatePriorityScore_decomp]
  simp only [ratingAdjustment, contentBonus, lengthBonus]
  by_cases h2 : rating ≤ 2
  · simp [h2]
  · by_cases h3 : rating ≤ 3
    · have he : rating = 3 := by omega
      simp [h2, h3, he]
    · have hne : ¬rating = 3 := by omega
      simp [h2, h3, hne]

/-- C4: `shouldFlag` is true iff rating ≤ 2, or an urgent keyword matches, or
a negative keyword matches; when none holds the decision is
`shouldFlag = false`, empty reason (the code's `none`), empty keywords; and
`flag(5, "this was a scam")` flags with reason `negative_keywords` and
keywords `["scam"]`. -/
theorem shouldFlag_iff (rating : Int) (text : List Char) :
    ((checkAndFlagDecision rating text).shouldFlag = true ↔
      (rating ≤ 2 ∨ foundUrgent text ≠ [] ∨ foundNegative text ≠ [])) ∧
    (¬(rating ≤ 2 ∨ foundUrgent text ≠ [] ∨ foundNegative text ≠ []) →
      checkAndFlagDecision rating text = ⟨false, "", []⟩) ∧
    checkAndFlagDecision 5 "this was a scam".data
      = ⟨true, "negative_keywords", ["scam".data]⟩ := by
  refine ⟨?_, ?_, by decide⟩ <;>
    rw [checkAndFlagDecision_eq] <;>
    by_cases hu : foundUrgent text = [] <;>
    by_cases hn : foundNegative text = [] <;>
    by_cases h2 : rating ≤ 2 <;>
    simp [hu, hn, h2, List.length_pos]

/-- C4 witness: at rating 4 and text "ok" no condition holds and the decision
is the non-flagging one. -/
theorem shouldFlag_iff_witness :
    ¬((4 : Int) ≤ 2 ∨ foundUrgent "ok".data ≠ [] ∨ foundNegative "ok".data ≠ []) ∧
    checkAndFlagDecision 4 "ok".data = ⟨false, "", []⟩ :=
  ⟨by decide, (shouldFlag_iff 4 "ok".data).2.1 (by decide)⟩

/-- C5: when an urgent keyword matches, the reason is `urgent_keywords`
(overriding `low_rating`) and the keywords are exactly the urgent matches in
the fixed set's order; when only a negative keyword matches, the reason is
`negative_keywords` exactly when rating > 2 (`low_rating` wins otherwise) and
the keywords are the negative matches; and `flag(1, "lawsuit and scam")` has
reason `urgent_keywords` with keywords containing "lawsuit" but not "scam". -/
theorem flagReason_precedence (rating : Int) (text : List Char) :
    (foundUrgent text ≠ [] →
      (checkAndFlagDecision rating text).flagReason = "urgent_keywords" ∧
      (checkAndFlagDecision rating text).keywords = foundUrgent text) ∧
    (foundUrgent text = [] → foundNegative text ≠ [] →
      (checkAndFlagDecision rating text).flagReason =
        (if rating ≤ 2 then "low_rating" else "negative_keywords") ∧
      (checkAndFlagDecision rating text).keywords = foundNegative text) ∧
    (checkAndFlagDecision 1 "lawsuit and scam".data
        = ⟨true, "urgent_keywords", ["lawsuit".data]⟩ ∧
      "scam".data ∉ (checkAndFlagDecision 1 "lawsuit and scam".data).keywords) := by
  refine ⟨?_, ?_, by decide, by decide⟩ <;>
    rw [checkAndFlagDecision_eq] <;>
    by_cases hu : foundUrgent text = [] <;>
    by_cases hn : foundNegative text = [] <;>
    simp [hu, hn, List.length_pos]

/-- C5 witness: at rating 1 and text "lawsuit" the urgent branch fires. -/
theorem flagReason_precedence_witness :
    (checkAndFlagDecision 1 "lawsuit".data).flagReason = "urgent_keywords" ∧
    (checkAndFlagDecision 1 "lawsuit".data).keywords = foundUrgent "lawsuit".data :=
  (flagReason_precedence 1 "lawsuit".data).1 (by decide)

/-- C6: out-of-range ratings degrade gracefully: any rating < 1 scores with
the ≤ 2 band's +3 and any rating > 5 with the ≥ 5 band's −1, and the result
is always in [1, 10]. -/
theorem out_of_range_rating (rating : Int) (text : List Char) :
    (rating < 1 → calculatePriorityScore rating text =
      min 10 (max 1 (5 + 3 + contentBonus text + lengthBonus text))) ∧
    (rating > 5 → calculatePriorityScore rating text =
      min 10 (max 1 (5 + -1 + contentBonus text + lengthBonus text))) ∧
    (1 ≤ calculatePriorityScore rating text ∧
      calculatePriorityScore rating text ≤ 10) := by
  refine ⟨?_, ?_, ?_⟩
  · intro h
    rw [calculatePriorityScore_decomp]
    have ha : ratingAdjustment rating = 3 := by
      simp [ratingAdjustment, show rating ≤ 2 by omega]
    rw [ha]
  · intro h
    rw [calculatePriorityScore_decomp]
    have ha : ratingAdjustment rating = -1 := by
      simp [ratingAdjustment, show ¬rating ≤ 2 by omega, show ¬rating ≤ 3 by omega,
        show rating ≥ 5 by omega]
    rw [ha]
  · rw [calculatePriorityScore_decomp]
    exact ⟨le_min (by norm_num) (le_max_left 1 _), min_le_left 10 _⟩

/-- C6 witness: rating 0 scores like the ≤ 2 band and rating 6 like the ≥ 5
band. -/
theorem out_of_range_rating_witness :
    calculatePriorityScore 0 "".data =
      min 10 (max 1 (5 + 3 + contentBonus "".data + lengthBonus "".data)) ∧
    calculatePriorityScore 6 "".data =
      min 10 (max 1 (5 + -1 + contentBonus "".data + lengthBonus "".data)) :=
  ⟨(out_of_range_rating 0 "".data).1 (by decide),
   (out_of_range_rating 6 "".data).2.1 (by decide)⟩

/-- C7: for every text longer than 500 characters the score is the clamp of
the other components plus exactly one +1, whichever keyword tier matched, and
never exceeds 10. -/
theorem length_bonus_once (rating : Int) (text : List Char)
    (h : text.length > 500) :
    calculatePriorityScore rating text =
      min 10 (max 1 (5 + ratingAdjustment rating + contentBonus text + 1)) ∧
    calculatePriorityScore rating text ≤ 10 := by
  rw [calculatePriorityScore_decomp]
  constructor
  · simp [lengthBonus, h]
  · exact min_le_left 10 _

set_option maxRecDepth 8192 in
/-- C7 witness: a 501-character text gets the +1 bonus at rating 1. -/
theorem length_bonus_once_witness :
    (List.replicate 501 'a').length > 500 ∧
    calculatePriorityScore 1 (List.replicate 501 'a') =
      min 10 (max 1 (5 + ratingAdjustment 1 +
        contentBonus (List.replicate 501 'a') + 1)) :=
  ⟨by simp, (length_bonus_once 1 (List.replicate 501 'a') (by simp)).1⟩

/-- C8: when the persist step fails, `checkAndFlag` catches the error and
returns `false` instead of propagating it, and `createReview` still returns
the result of the primary review write. -/
theorem flag_persist_failure_swallowed (rating : Int) (text : List Char)
    (e : String) (rid : String) :
    checkAndFlagRun rating text (fun _ => Except.error e) = Except.ok false ∧
    createReviewRun rating text (Except.ok rid) (fun _ => Except.error e)
      = Except.ok rid := by
  have hc : checkAndFlagRun rating text (fun _ => Except.error e)
      = Except.ok false := by
    simp only [checkAndFlagRun]
    cases hd : (checkAndFlagDecision rating text).shouldFlag
    · simp
    · cases autoFlagUpdate rating text <;> simp
  exact ⟨hc, by simp [createReviewRun, hc]⟩

/-- C9: the scorer and the flag decision are deterministic pure functions of
the pair (rating, text): identical inputs give identical outputs. -/
theorem triage_deterministic (r₁ r₂ : Int) (t₁ t₂ : List Char)
    (hr : r₁ = r₂) (ht : t₁ = t₂) :
    calculatePriorityScore r₁ t₁ = calculatePriorityScore r₂ t₂ ∧
    checkAndFlagDecision r₁ t₁ = checkAndFlagDecision r₂ t₂ := by
  subst hr ht
  exact ⟨rfl, rfl⟩

/-- C9 witness: the scorer and flag decision agree with themselves at a
concrete input. -/
theorem triage_deterministic_witness :
    calculatePriorityScore 3 "ok".data = calculatePriorityScore 3 "ok".data ∧
    checkAndFlagDecision 3 "ok".data = checkAndFlagDecision 3 "ok".data :=
  triage_deterministic 3 3 "ok".data "ok".data rfl rfl

/-- C10: whenever the decision is to flag, the update handed to the storage
layer carries the decision's reason and keywords, `flaggedBy = "system"`, and
`priorityScore = 8` — `checkAndFlag` passes no priority score, so
`flagReview`'s `Math.min(10, flagData.priorityScore || 8)` default overwrites
whatever `calculatePriorityScore` computed. -/
theorem autoFlag_priorityScore_eight (rating : Int) (text : List Char)
    (h : (checkAndFlagDecision rating text).shouldFlag = true) :
    autoFlagUpdate rating text = Except.ok
      { flagging :=
          { isFlagged := true
            reason := (checkAndFlagDecision rating text).flagReason
            keywords := (checkAndFlagDecision rating text).keywords
            flaggedBy := "system" }
        priorityScore := 8 } := by
  have hne : (checkAndFlagDecision rating text).flagReason ≠ "" := by
    rcases decision_reason_cases rating text with h1 | h1 | h1 | h1
    · rw [h1]; decide
    · rw [h1]; decide
    · rw [h1]; decide
    · rw [h1.2] at h; cases h
  simp [autoFlagUpdate, flagReviewUpdate, autoFlagData, jsOrList, jsOrString,
    jsOrInt, hne]

/-- C10 witness: rating 1 with text "lawsuit" flags, the stored priority
score is the constant 8, and the score the scorer had computed was 10. -/
theorem autoFlag_priorityScore_eight_witness :
    autoFlagUpdate 1 "lawsuit".data = Except.ok
      { flagging :=
          { isFlagged := true
            reason := (checkAndFlagDecision 1 "lawsuit".data).flagReason
            keywords := (checkAndFlagDecision 1 "lawsuit".data).keywords
            flaggedBy := "system" }
        priorityScore := 8 } ∧
    calculatePriorityScore 1 "lawsuit".data = 10 :=
  ⟨autoFlag_priorityScore_eight 1 "lawsuit".data (by decide), by decide⟩

/-- C1 counterexample: at rating 1 and text "terrible" the auto-flag decision
has reason `low_rating` yet stores the non-empty keyword list `["terrible"]`,
so keywords can be non-empty when the reason is not keyword-based. -/
theorem flagging_keywords_counterexample :
    (checkAndFlagDecision 1 "terrible".data).flagReason = "low_rating" ∧
    (checkAndFlagDecision 1 "terrible".data).keywords ≠ [] ∧
    autoFlagUpdate 1 "terrible".data = Except.ok
      { flagging :=
          { isFlagged := true
            reason := "low_rating"
            keywords := ["terrible".data]
            flaggedBy := "system" }
        priorityScore := 8 } :=
  ⟨by decide, by decide, by rfl⟩

/-- C1 (amended): the stored `flagging.keywords` is non-empty only when a
keyword matched: either the reason is keyword-based (`urgent_keywords` or
`negative_keywords`), or the reason is `low_rating` and the text contains a
negative keyword; when the reason is `low_rating` and no negative keyword
matches, the stored keywords list is empty. -/
theorem flagging_keywords_invariant (rating : Int) (text : List Char)
    (u : FlagUpdate)
    (hf : (checkAndFlagDecision rating text).shouldFlag = true)
    (hu : autoFlagUpdate rating text = Except.ok u) :
    (u.flagging.keywords ≠ [] →
      u.flagging.reason = "urgent_keywords" ∨
      u.flagging.reason = "negative_keywords" ∨
      (u.flagging.reason = "low_rating" ∧ foundNegative text ≠ [])) ∧
    ((u.flagging.reason = "low_rating" ∧ foundNegative text = []) →
      u.flagging.keywords = []) := by
  rw [autoFlag_priorityScore_eight rating text hf] at hu
  obtain rfl : u = _ := (Except.ok.injEq _ _).mp hu.symm
  rw [checkAndFlagDecision_eq] at hf ⊢
  by_cases hU : (foundUrgent text).length > 0
  · simp [hU]
  · by_cases hN : (foundNegative text).length > 0
    · have hNne : foundNegative text ≠ [] := by
        intro hnil
        rw [hnil] at hN
        exact absurd hN (by decide)
      by_cases h2 : rating ≤ 2 <;> simp [hU, hN, h2, hNne]
    · by_cases h2 : rating ≤ 2
      · simp [hU, hN, h2]
      · rw [if_neg hU, if_neg hN, if_neg h2] at hf
        cases hf

/-- C1 witness: rating 1 with keyword-free text "ok" flags with reason
`low_rating` and an empty stored keyword list. -/
theorem flagging_keywords_invariant_witness :
    ({ flagging :=
        { isFlagged := true
          reason := "low_rating"
          keywords := []
          flaggedBy := "system" }
       priorityScore := 8 } : FlagUpdate).flagging.keywords = [] :=
  (flagging_keywords_invariant 1 "ok".data
    { flagging :=
        { isFlagged := true
          reason := "low_rating"
          keywords := []
          flaggedBy := "system" }
      priorityScore := 8 }
    (by decide) (by rfl)).2 ⟨by rfl, by decide⟩

end YourReviews
